import Mathlib

/-!
Shallow embedding of the solar-charger regulator core
(src/firmware/regulator.c) for verification of its specification.

Machine arithmetic conventions of the C source:
* `fract32_t` / `fixed32_t` are signed 32-bit ints, modelled as `Int`
  with an explicit two's-complement wrap `i32` applied where the C
  converts a wider value back into an `int`.
* `uint16_t` / `uint32_t` / `uint64_t` fields are modelled as `Nat`
  with explicit reductions `u16` / `u32` / `u64ofInt` where the C
  truncates or reinterprets.
* C's signed division (`/= 2`, truncation toward zero) is `Int.tdiv`;
  an arithmetic right shift of a signed 64-bit value by 16 is floor
  division by 65536, i.e. `Int` division (`Int.ediv`) in Lean.
-/

namespace Solar

/-- Reduce a `Nat` to a `uint16_t` value (truncating store). -/
def u16 (x : Nat) : Nat := x % 65536

/-- Reduce a `Nat` to a `uint32_t` value (truncating store). -/
def u32 (x : Nat) : Nat := x % 4294967296

/-- C conversion of a signed value to `uint32_t` (reduction mod 2^32). -/
def u32ofInt (x : Int) : Nat := (x % 4294967296).toNat

/-- C conversion of a signed value to `uint64_t` (reduction mod 2^64). -/
def u64ofInt (x : Int) : Nat := (x % 18446744073709551616).toNat

/-- Two's-complement wrap of an integer into the `int32_t` range. -/
def i32 (x : Int) : Int := (x + 2147483648) % 4294967296 - 2147483648

/-- `enum feedback_mode` from regulator.h. -/
inductive feedback_mode where
  | DISABLED
  | CONST_DUTY
  | CURRENT_FB
  | VOLTAGE_FB
  | MAX_POWER
deriving DecidableEq, Repr

export feedback_mode (DISABLED CONST_DUTY CURRENT_FB VOLTAGE_FB MAX_POWER)

/-- `struct feedback_gains`: proportional gains for the two switches
(`fixed32_t`, signed). -/
structure feedback_gains where
  prop_gain1 : Int
  prop_gain2 : Int
deriving DecidableEq, Repr

/-- `struct regulator_t` — the software-visible state of one channel.
The function pointers (`enable_func`, …) are modelled separately as the
concrete channel operations; purely hardware-facing fields are omitted. -/
structure regulator_t where
  vsense_gain : Nat      -- uint32_t, codepoints per volt
  isense_gain : Nat      -- uint32_t, codepoints per amp
  period : Nat           -- uint32_t, period in cycles
  duty1 : Int            -- fract32_t (int32_t)
  duty2 : Int            -- fract32_t (int32_t)
  isense : Nat           -- uint16_t
  vsense : Nat           -- uint16_t
  mode : feedback_mode
  isetpoint : Nat        -- uint16_t
  vlimit : Nat           -- uint16_t
  vsetpoint : Nat        -- uint16_t
  ilimit : Nat           -- uint16_t
  i_gains : feedback_gains
  v_gains : feedback_gains
deriving DecidableEq, Repr

/-- `regulator_feedback_error` (regulator.c:227-254): the two-switch
duty-mixing algorithm.  `error` is the already-computed signed error,
`gains` the gain pair of the active feedback domain.  Deltas are
computed as `((int64_t) error * gain) >> 16` (exact 64-bit product,
arithmetic shift = floor division), then subtracted from / added to the
32-bit duty with wraparound on the store.  The final `if` clamps duty2
down to duty1. -/
def regulator_feedback_error (reg : regulator_t) (gains : feedback_gains)
    (error : Int) : regulator_t :=
  let fudge : Int := 2000
  let reg :=
    if error < 0 ∧ reg.duty1 > 0xffff - fudge ∧ reg.duty2 > 0xffff - fudge then
      -- voltage collapsed: fall back (0xffff/2 = 32767 in C int division)
      { reg with duty1 := 32767, duty2 := 32767 }
    else if error < 0 ∧ reg.duty1 > 0xffff - fudge then
      -- switch 1 overflow, start increasing switch 2
      { reg with duty2 := i32 (reg.duty2 - (error * gains.prop_gain2) / 65536) }
    else if error > 0 ∧ reg.duty1 < fudge then
      -- switch 1 underflow, start decreasing switch 2
      { reg with duty2 := i32 (reg.duty2 - (error * gains.prop_gain2) / 65536) }
    else if error < 0 ∧ reg.duty2 > fudge then
      { reg with duty2 := i32 (reg.duty2 + (error * gains.prop_gain2) / 65536) }
    else
      -- normal operating conditions, regulate with switch 1
      { reg with duty1 := i32 (reg.duty1 - (error * gains.prop_gain1) / 65536) }
  -- Ensure switch 2 is never on when switch 1 is off
  if reg.duty2 > reg.duty1 then { reg with duty2 := reg.duty1 } else reg

/-- The final per-duty clamp of `regulator_feedback` (regulator.c:280-283):
`if (d < 0) d = 0; if (d > 0xffff) d = 0xffff;`. -/
def clamp_fract (x : Int) : Int :=
  if x < 0 then 0 else if x > 0xffff then 0xffff else x

/-- `regulator_feedback` (regulator.c:256-285): one Feedback Controller
invocation on one channel.  Disabled/ConstantDuty return before the
clamps; the feedback modes run protection or mixing and then clamp both
duties.  The trailing `update_duty_func()` only pushes the clamped duties
to the PWM hardware and is modelled separately (`set_pwm_duty`). -/
def regulator_feedback (reg : regulator_t) : regulator_t :=
  if reg.mode = DISABLED then reg
  else if reg.mode = CONST_DUTY then reg
  else
    let reg :=
      if reg.mode = VOLTAGE_FB then
        if reg.isense > reg.ilimit then
          { reg with duty1 := reg.duty1.tdiv 2, duty2 := reg.duty2.tdiv 2 }
        else
          regulator_feedback_error reg reg.v_gains
            ((reg.vsense : Int) - (reg.vsetpoint : Int))
      else if reg.mode = CURRENT_FB then
        if reg.vsense > reg.vlimit then
          { reg with duty1 := reg.duty1.tdiv 2, duty2 := reg.duty2.tdiv 2 }
        else
          regulator_feedback_error reg reg.i_gains
            ((reg.isense : Int) - (reg.isetpoint : Int))
      else reg
    { reg with duty1 := clamp_fract reg.duty1, duty2 := clamp_fract reg.duty2 }

/-- `set_pwm_duty` (regulator.c:147-152).  `t` is computed in `uint64_t`
as `((uint64_t) d * period) >> 16` and stored into a `uint32_t` before
the guard; `none` models the fatal-fault halt (`while (1)`), `some t`
the value written to the compare register. -/
def set_pwm_duty (period : Nat) (d : Int) : Option Nat :=
  let t : Nat := u32 (((u64ofInt d * period) % 18446744073709551616) >>> 16)
  if t > 0xffff then none else some t

/-- `regulator_set_duty_cycle` (regulator.c:428-438), parameterised over
the channel's `configure_func` capability (the C dispatches through a
function pointer whose `int` result is ignored here).  Returns the C
return code together with the resulting channel state. -/
def regulator_set_duty_cycle (configure_func : regulator_t → Int × regulator_t)
    (reg : regulator_t) (d1 d2 : Int) : Int × regulator_t :=
  if reg.mode ≠ CONST_DUTY ∧ reg.mode ≠ DISABLED then (1, reg)
  else if d2 > d1 then (2, reg)
  else
    let reg := { reg with duty1 := d1, duty2 := d2 }
    (0, (configure_func reg).2)

/-- `regulator_set_vsetpoint` (regulator.c:450-456).  The codepoint is
`(uint32_t)(vsense_gain * setpoint) >> 16`: the `int` setpoint is
converted to `uint32_t`, multiplied mod 2^32, shifted logically. -/
def regulator_set_vsetpoint (reg : regulator_t) (setpoint : Int) :
    Int × regulator_t :=
  let v : Nat := u32 (reg.vsense_gain * u32ofInt setpoint) >>> 16
  if v > reg.vlimit then (1, reg) else (0, { reg with vsetpoint := v })

/-- `regulator_get_vsetpoint` (regulator.c:458-461):
`(vsetpoint << 16) / vsense_gain`.  The `int` numerator wraps at 2^31,
is reinterpreted as `uint32_t` for the division, and the unsigned
quotient is reinterpreted back as the `fixed32_t` result. -/
def regulator_get_vsetpoint (reg : regulator_t) : Int :=
  i32 ((u32ofInt (i32 ((reg.vsetpoint : Int) * 65536)) / reg.vsense_gain : Nat) : Int)

/-!  PWM synthesis and the two concrete channels.

Only the software-visible outcome of timer programming is modelled: the
output-compare value written for each switch.  `configure_pwm` and
`configure_dual_pwm` (regulator.c:165-182, 204-225) unconditionally
return 0; their compare-value writes are returned alongside. -/

/-- `configure_pwm` (regulator.c:165-182): programs one center-aligned
PWM with initial compare value `t` (a `uint16_t` parameter, so callers
truncate) and returns 0. -/
def configure_pwm (t : Nat) : Int × Nat := (0, t)

/-- `configure_dual_pwm` (regulator.c:204-225): configures both timers
via `configure_pwm` (return values discarded, as in the C) and
returns 0 with the two compare values written. -/
def configure_dual_pwm (ta tb : Nat) : Int × Nat × Nat :=
  ((configure_pwm ta).1, (configure_pwm ta).2, (configure_pwm tb).2)

/-- Channel 1 machine state: the regulator struct plus the two
output-compare registers its PWM timers expose (TIM2/TIM4 OC3). -/
structure ch1_machine where
  reg : regulator_t
  tim2_oc3 : Nat
  tim4_oc3 : Nat
deriving DecidableEq, Repr

/-- The compare value `configure_ch1` derives from a duty:
`(uint16_t)(((uint64_t) period * duty) >> 16)` — the signed duty is
reinterpreted as `uint64_t`, multiplied mod 2^64, shifted, truncated. -/
def ch1_tick (period : Nat) (d : Int) : Nat :=
  u16 (((period * u64ofInt d) % 18446744073709551616) >>> 16)

/-- `configure_ch1` (regulator.c:291-304): computes `ta`, `tb` from the
current duties and programs the dual PWM; propagates its (always-0)
return code. -/
def configure_ch1 (m : ch1_machine) : Int × ch1_machine :=
  let ta := ch1_tick m.reg.period m.reg.duty1
  let tb := ch1_tick m.reg.period m.reg.duty2
  let r := configure_dual_pwm ta tb
  if r.1 ≠ 0 then (r.1, m)
  else (0, { m with tim2_oc3 := r.2.1, tim4_oc3 := r.2.2 })

/-- Channel 2 machine state: regulator struct plus the TIM3 compare
register of the selected output-compare unit. -/
structure ch2_machine where
  reg : regulator_t
  tim3_oc : Nat
deriving DecidableEq, Repr

/-- `configure_ch2` (regulator.c:356-363): `t = period * duty1 / 0xffff`
in `uint32_t` arithmetic (the signed duty reinterpreted mod 2^32), then
passed to `configure_pwm`'s `uint16_t` parameter (truncating). -/
def configure_ch2 (m : ch2_machine) : Int × ch2_machine :=
  let t := u32 (m.reg.period * u32ofInt m.reg.duty1) / 0xffff
  let r := configure_pwm (u16 t)
  if r.1 ≠ 0 then (r.1, m)
  else (0, { m with tim3_oc := r.2 })

/-- `regulator_set_mode` (regulator.c:400-421) instantiated for
channel 1.  `enable_func` / `disable_func` touch only clocks and GPIO,
which are outside the model; the mode write, the configure call and the
configure-fault recovery path are modelled exactly. -/
def regulator_set_mode_ch1 (m : ch1_machine) (mode : feedback_mode) :
    Int × ch1_machine :=
  let m := { m with reg := { m.reg with mode := mode } }
  if mode ≠ DISABLED then
    let r := configure_ch1 m
    if r.1 ≠ 0 then
      (r.1, { r.2 with reg := { r.2.reg with mode := DISABLED } })
    else (0, r.2)
  else (0, m)

/-- `regulator_set_mode` (regulator.c:400-421) instantiated for
channel 2. -/
def regulator_set_mode_ch2 (m : ch2_machine) (mode : feedback_mode) :
    Int × ch2_machine :=
  let m := { m with reg := { m.reg with mode := mode } }
  if mode ≠ DISABLED then
    let r := configure_ch2 m
    if r.1 ≠ 0 then
      (r.1, { r.2 with reg := { r.2.reg with mode := DISABLED } })
    else (0, r.2)
  else (0, m)

/-- `regulator_set_duty_cycle` as called on channel 1 (`configure_func`
= `configure_ch1`), with the PWM effect visible in the machine state. -/
def set_duty_cycle_ch1 (m : ch1_machine) (d1 d2 : Int) : Int × ch1_machine :=
  if m.reg.mode ≠ CONST_DUTY ∧ m.reg.mode ≠ DISABLED then (1, m)
  else if d2 > d1 then (2, m)
  else
    let m := { m with reg := { m.reg with duty1 := d1, duty2 := d2 } }
    (0, (configure_ch1 m).2)

/-- `regulator_set_isetpoint` (regulator.c:463-469), same shape as
`regulator_set_vsetpoint` with the current-sense gain and limit. -/
def regulator_set_isetpoint (reg : regulator_t) (setpoint : Int) :
    Int × regulator_t :=
  let i : Nat := u32 (reg.isense_gain * u32ofInt setpoint) >>> 16
  if i > reg.ilimit then (1, reg) else (0, { reg with isetpoint := i })

/-- `regulator_set_period` (regulator.c:492-498): legal only while
Disabled; stores the `unsigned int` period. -/
def regulator_set_period (reg : regulator_t) (p : Nat) : Int × regulator_t :=
  if reg.mode ≠ DISABLED then (-1, reg) else (0, { reg with period := u32 p })

/-- The `regulator_t`-projection of the concrete configure capabilities:
`configure_ch1` and `configure_ch2` write only timer registers, never
the regulator struct, and return 0 (regulator.c:291-304, 356-363). -/
def configure_reg_id : regulator_t → Int × regulator_t := fun r => (0, r)

/-- Initial state of `chan1` (regulator.c:48-61).  The C float
initialisers truncate to `vsense_gain = trunc((1<<12)/3.3*33/101) = 405`
and `isense_gain = trunc((1<<12)/(3.3/0.05/10)) = 620`; uninitialised
fields are zero (static storage). -/
def chan1_init : regulator_t where
  vsense_gain := 405
  isense_gain := 620
  period := 400
  duty1 := 0
  duty2 := 0
  isense := 0
  vsense := 0
  mode := DISABLED
  isetpoint := 0
  vlimit := 0xffff
  vsetpoint := 0
  ilimit := 0xffff
  i_gains := ⟨0x10000, 0x10000⟩
  v_gains := ⟨0x10000, 0x10000⟩

/-- Initial state of `chan2` (regulator.c:68-81):
`isense_gain = trunc((1<<12)/(3.3/0.05/47)) = 2916`. -/
def chan2_init : regulator_t :=
  { chan1_init with isense_gain := 2916 }

/-- The states of one channel's `regulator_t` reachable through the
public API and the sample interrupt, each constructor naming the C
entry point whose effect on the struct it takes:
* `sense`: `adc1_isr` stores four raw ADC codepoints (`uint16_t`);
* `feedback`: `regulator_feedback` from the same ISR;
* `set_mode`: `regulator_set_mode` — the configure capabilities always
  succeed (see the C9 theorem), so the resulting mode is the requested
  one and no other struct field changes;
* `set_duty`: `regulator_set_duty_cycle` with the concrete channels'
  configure effect on the struct (`configure_reg_id`);
* the setpoint/period setters.
`regulator_set_ch2_source` does not touch the struct. -/
inductive reachable : regulator_t → Prop where
  | init1 : reachable chan1_init
  | init2 : reachable chan2_init
  | sense {r : regulator_t} (vs is : Nat) :
      reachable r → reachable { r with vsense := u16 vs, isense := u16 is }
  | feedback {r : regulator_t} :
      reachable r → reachable (regulator_feedback r)
  | set_mode {r : regulator_t} (m : feedback_mode) :
      reachable r → reachable { r with mode := m }
  | set_duty {r : regulator_t} (d1 d2 : Int) :
      reachable r →
      reachable (regulator_set_duty_cycle configure_reg_id r d1 d2).2
  | set_vsetpoint {r : regulator_t} (v : Int) :
      reachable r → reachable (regulator_set_vsetpoint r v).2
  | set_isetpoint {r : regulator_t} (v : Int) :
      reachable r → reachable (regulator_set_isetpoint r v).2
  | set_period {r : regulator_t} (p : Nat) :
      reachable r → reachable (regulator_set_period r p).2

/-- A concrete channel state used to instantiate theorems with
hypotheses: channel 1's construction values (regulator.c:48-61,
`vsense_gain` = trunc((1<<12)/3.3*33/101) = 405) in VoltageFeedback. -/
def sample : regulator_t where
  vsense_gain := 405
  isense_gain := 99
  period := 400
  duty1 := 0x8000
  duty2 := 1000
  isense := 0
  vsense := 1800
  mode := VOLTAGE_FB
  isetpoint := 0
  vlimit := 0xffff
  vsetpoint := 2000
  ilimit := 0xffff
  i_gains := ⟨0x10000, 0x10000⟩
  v_gains := ⟨0x10000, 0x10000⟩

/-! ### Helper lemmas -/

theorem clamp_fract_mono {a b : Int} (h : a ≤ b) :
    clamp_fract a ≤ clamp_fract b := by
  unfold clamp_fract
  split_ifs <;> omega

theorem clamp_fract_nonneg (x : Int) : 0 ≤ clamp_fract x := by
  unfold clamp_fract
  split_ifs <;> omega

theorem clamp_fract_le (x : Int) : clamp_fract x ≤ 0xffff := by
  unfold clamp_fract
  split_ifs <;> omega

theorem tdiv_two_mono {a b : Int} (h : a ≤ b) : a.tdiv 2 ≤ b.tdiv 2 := by
  cases a with
  | ofNat m =>
    cases b with
    | ofNat n =>
      show Int.ofNat (m / 2) ≤ Int.ofNat (n / 2)
      exact Int.ofNat_le.mpr (Nat.div_le_div_right (Int.ofNat_le.mp h))
    | negSucc n =>
      exact absurd h (not_le.mpr ((Int.negSucc_lt_zero n).trans_le (Int.ofNat_nonneg m)))
  | negSucc m =>
    cases b with
    | ofNat n =>
      show -Int.ofNat ((m + 1) / 2) ≤ Int.ofNat (n / 2)
      exact le_trans (neg_nonpos.mpr (Int.ofNat_nonneg _)) (Int.ofNat_nonneg _)
    | negSucc n =>
      show -Int.ofNat ((m + 1) / 2) ≤ -Int.ofNat ((n + 1) / 2)
      have hnm : n ≤ m := by
        simp only [Int.negSucc_eq] at h
        omega
      exact neg_le_neg (Int.ofNat_le.mpr (Nat.div_le_div_right (Nat.succ_le_succ hnm)))

theorem duty2_clamp_le (r : regulator_t) :
    (if r.duty2 > r.duty1 then { r with duty2 := r.duty1 } else r).duty2 ≤
      (if r.duty2 > r.duty1 then { r with duty2 := r.duty1 } else r).duty1 := by
  split_ifs with h
  · exact le_refl _
  · omega

/-- The mixing algorithm re-establishes `duty2 ≤ duty1` unconditionally
(its final clamp). -/
theorem regulator_feedback_error_duty2_le (reg : regulator_t)
    (g : feedback_gains) (e : Int) :
    (regulator_feedback_error reg g e).duty2 ≤
      (regulator_feedback_error reg g e).duty1 := by
  unfold regulator_feedback_error
  exact duty2_clamp_le _

theorem tdiv_two_le_self {a : Int} (h : 0 ≤ a) : a.tdiv 2 ≤ a := by
  rw [Int.tdiv_eq_ediv h (by norm_num)]
  exact Int.ediv_le_self 2 h

theorem clamp_fract_eq_self {x : Int} (h0 : 0 ≤ x) (h1 : x ≤ 0xffff) :
    clamp_fract x = x := by
  unfold clamp_fract
  split_ifs <;> omega

/-- One Feedback Controller invocation preserves the duty ordering
invariant, whatever the mode and the branch taken. -/
theorem feedback_preserves_duty2_le_duty1 (reg : regulator_t)
    (h : reg.duty2 ≤ reg.duty1) :
    (regulator_feedback reg).duty2 ≤ (regulator_feedback reg).duty1 := by
  unfold regulator_feedback
  split_ifs with h1 h2 h3 h4 h5 h6
  · exact h
  · exact h
  · exact clamp_fract_mono (tdiv_two_mono h)
  · exact clamp_fract_mono (regulator_feedback_error_duty2_le _ _ _)
  · exact clamp_fract_mono (tdiv_two_mono h)
  · exact clamp_fract_mono (regulator_feedback_error_duty2_le _ _ _)
  · exact clamp_fract_mono h

/-- `duty2 ≤ duty1` holds in every reachable state: it holds at
construction (both duties zero) and every API call and feedback tick
preserves it. -/
theorem reachable_duty2_le_duty1 {r : regulator_t} (h : reachable r) :
    r.duty2 ≤ r.duty1 := by
  induction h with
  | init1 => exact le_refl _
  | init2 => exact le_refl _
  | sense vs is _ ih => exact ih
  | feedback _ ih => exact feedback_preserves_duty2_le_duty1 _ ih
  | set_mode m _ ih => exact ih
  | set_duty d1 d2 _ ih =>
    unfold regulator_set_duty_cycle
    split_ifs with hm hd
    · exact ih
    · exact ih
    · simpa [configure_reg_id] using not_lt.mp hd
  | set_vsetpoint v _ ih =>
    unfold regulator_set_vsetpoint
    dsimp only
    split_ifs <;> exact ih
  | set_isetpoint v _ ih =>
    unfold regulator_set_isetpoint
    dsimp only
    split_ifs <;> exact ih
  | set_period p _ ih =>
    unfold regulator_set_period
    split_ifs <;> exact ih

/-- C1: For every reachable state of a channel, after every invocation
of the Feedback Controller (`regulator_feedback`) the invariant
`duty2 ≤ duty1` holds, in every mode and on every branch of the mixing
algorithm (including the overcurrent/overvoltage halving path and the
final [0, 0xffff] clamps). -/
theorem feedback_duty_invariant (r : regulator_t) (h : reachable r) :
    (regulator_feedback r).duty2 ≤ (regulator_feedback r).duty1 :=
  feedback_preserves_duty2_le_duty1 r (reachable_duty2_le_duty1 h)

/-- Witness for C1 at the concrete initial state of channel 1. -/
theorem feedback_duty_invariant_witness :
    (regulator_feedback chan1_init).duty2 ≤
      (regulator_feedback chan1_init).duty1 :=
  feedback_duty_invariant chan1_init reachable.init1

/-- C2 counterexample: with `error = -200 < 0` and both duties at
64000 (within `fudge = 2000` of full scale), one invocation of the
mixing algorithm sets `duty1` to `0xffff/2 = 32767`, not `0x8000` as
the claim states. -/
theorem feedback_error_collapse_cex :
    ((-200 : Int) < 0 ∧ (64000 : Int) > 0xffff - 2000) ∧
    (regulator_feedback_error { sample with duty1 := 64000, duty2 := 64000 }
        ⟨0x10000, 0x10000⟩ (-200)).duty1 = 32767 ∧
    (regulator_feedback_error { sample with duty1 := 64000, duty2 := 64000 }
        ⟨0x10000, 0x10000⟩ (-200)).duty1 ≠ 0x8000 := by decide

/-- C2 (amended): if `error < 0` and both `duty1` and `duty2` are
within `fudge` (2000) of full-scale, one invocation of the mixing
algorithm (`regulator_feedback_error`) sets both duties to exactly
`0xffff/2 = 0x7fff` (32767), one codepoint below the claimed `0x8000`. -/
theorem feedback_error_collapse (reg : regulator_t) (g : feedback_gains)
    (e : Int) (he : e < 0) (h1 : reg.duty1 > 0xffff - 2000)
    (h2 : reg.duty2 > 0xffff - 2000) :
    regulator_feedback_error reg g e =
      { reg with duty1 := 32767, duty2 := 32767 } := by
  have hC : e < 0 ∧ reg.duty1 > (65535 - 2000 : Int) ∧
      reg.duty2 > (65535 - 2000 : Int) := ⟨he, by omega, by omega⟩
  unfold regulator_feedback_error
  dsimp only
  rw [if_pos hC, if_neg (by simp)]

/-- Witness for C2's amended theorem at a concrete collapsed state. -/
theorem feedback_error_collapse_witness :
    regulator_feedback_error { sample with duty1 := 65000, duty2 := 64500 }
        ⟨0x10000, 0x10000⟩ (-1) =
      { sample with duty1 := 32767, duty2 := 32767 } :=
  feedback_error_collapse _ _ _ (by decide) (by decide) (by decide)

/-- C3 counterexample: same scenario (`VoltageFeedback`, `duty1 =
0x8000`, `vsense = 1800`, `vsetpoint = 2000`, `prop_gain1 = 0x10000`)
but with `duty2 = 3000 > fudge`: mixing branch 4 runs instead, so
`duty1` stays `0x8000` (it does not increase by 200) and `duty2` drops
to 2800 even though 3000 does not exceed the claimed new `duty1`. -/
theorem feedback_voltage_step_cex :
    ({ sample with duty2 := 3000 }.mode = VOLTAGE_FB ∧
      { sample with duty2 := 3000 }.vsense = 1800 ∧
      { sample with duty2 := 3000 }.vsetpoint = 2000 ∧
      { sample with duty2 := 3000 }.duty1 = 0x8000 ∧
      { sample with duty2 := 3000 }.v_gains.prop_gain1 = 0x10000) ∧
    (regulator_feedback { sample with duty2 := 3000 }).duty1 = 0x8000 ∧
    (regulator_feedback { sample with duty2 := 3000 }).duty2 = 2800 := by
  decide

/-- C3 (amended): in VoltageFeedback with `duty1 = 0x8000`,
`vsetpoint = 2000`, `vsense = 1800` (error = -200), `prop_gain1 =
0x10000` and — the amendment — `0 ≤ duty2 ≤ fudge` (2000), one feedback
tick increases `duty1` by exactly 200 codepoints and leaves `duty2`
unchanged.  (For `duty2 > fudge` mixing branch 4 adjusts `duty2`
instead; see the counterexample.) -/
theorem feedback_voltage_step (reg : regulator_t)
    (hm : reg.mode = VOLTAGE_FB) (hoc : reg.isense ≤ reg.ilimit)
    (hvs : reg.vsense = 1800) (hsp : reg.vsetpoint = 2000)
    (hd1 : reg.duty1 = 0x8000) (hg : reg.v_gains.prop_gain1 = 0x10000)
    (hd2l : 0 ≤ reg.duty2) (hd2h : reg.duty2 ≤ 2000) :
    (regulator_feedback reg).duty1 = 0x8000 + 200 ∧
    (regulator_feedback reg).duty2 = reg.duty2 := by
  have hoc' : ¬ (reg.isense > reg.ilimit) := not_lt.mpr hoc
  have hcl : clamp_fract reg.duty2 = reg.duty2 :=
    clamp_fract_eq_self hd2l (by omega)
  unfold regulator_feedback regulator_feedback_error
  rw [if_neg (by simp [hm]), if_neg (by simp [hm]), if_pos hm, if_neg hoc',
      hvs, hsp, hd1, hg]
  norm_num [i32]
  rw [if_neg (show ¬ ((2000 : Int) < reg.duty2) by omega)]
  rw [if_neg (show ¬ (reg.duty2 > (32968 : Int)) by omega)]
  constructor
  · norm_num [clamp_fract]
  · exact hcl

/-- Witness for C3's amended theorem at the concrete sample state
(`duty2 = 1000`). -/
theorem feedback_voltage_step_witness :
    (regulator_feedback sample).duty1 = 0x8000 + 200 ∧
    (regulator_feedback sample).duty2 = sample.duty2 :=
  feedback_voltage_step sample (by decide) (by decide) (by decide)
    (by decide) (by decide) (by decide) (by decide) (by decide)

/-- C4: after every Feedback Controller invocation in a feedback mode
the final clamp leaves `duty1` and `duty2` in [0, 0xffff] (hence in the
claimed [0, 0x10000]): negative intermediates are clamped up to 0 and
values above the rail down to 0xffff. -/
theorem feedback_clamps_duties (reg : regulator_t)
    (h : reg.mode = VOLTAGE_FB ∨ reg.mode = CURRENT_FB) :
    (0 ≤ (regulator_feedback reg).duty1 ∧
      (regulator_feedback reg).duty1 ≤ 0xffff) ∧
    (0 ≤ (regulator_feedback reg).duty2 ∧
      (regulator_feedback reg).duty2 ≤ 0xffff) := by
  have h1 : reg.mode ≠ DISABLED := by rcases h with h | h <;> simp [h]
  have h2 : reg.mode ≠ CONST_DUTY := by rcases h with h | h <;> simp [h]
  unfold regulator_feedback
  split_ifs <;>
    first
      | exact absurd ‹reg.mode = DISABLED› h1
      | exact absurd ‹reg.mode = CONST_DUTY› h2
      | exact ⟨⟨clamp_fract_nonneg _, clamp_fract_le _⟩,
          clamp_fract_nonneg _, clamp_fract_le _⟩

/-- Witness for C4 at a state whose raw mixing result would leave the
range (duty1 near the rail, large negative-error step). -/
theorem feedback_clamps_duties_witness :
    (0 ≤ (regulator_feedback { sample with duty2 := 3000 }).duty1 ∧
      (regulator_feedback { sample with duty2 := 3000 }).duty1 ≤ 0xffff) ∧
    (0 ≤ (regulator_feedback { sample with duty2 := 3000 }).duty2 ∧
      (regulator_feedback { sample with duty2 := 3000 }).duty2 ≤ 0xffff) :=
  feedback_clamps_duties { sample with duty2 := 3000 } (Or.inl rfl)

/-- C5: in VoltageFeedback, when `isense > ilimit` one feedback tick
halves both duties (C truncating division, `Int.tdiv`) and does not run
the mixing algorithm — the result is exactly the halved state, every
other field unchanged, independent of error and gains; symmetrically in
CurrentFeedback when `vsense > vlimit`.  `regulator_feedback` returns
no status, so neither path reports an error.  The duty bounds make the
final clamp the identity (they hold in all reachable states by C4/C1). -/
theorem feedback_protection_halves (reg : regulator_t)
    (hd1 : 0 ≤ reg.duty1) (hd1h : reg.duty1 ≤ 0xffff)
    (hd2 : 0 ≤ reg.duty2) (hd2h : reg.duty2 ≤ 0xffff) :
    (reg.mode = VOLTAGE_FB → reg.isense > reg.ilimit →
      regulator_feedback reg =
        { reg with duty1 := reg.duty1.tdiv 2, duty2 := reg.duty2.tdiv 2 }) ∧
    (reg.mode = CURRENT_FB → reg.vsense > reg.vlimit →
      regulator_feedback reg =
        { reg with duty1 := reg.duty1.tdiv 2, duty2 := reg.duty2.tdiv 2 }) := by
  have e1 : clamp_fract (reg.duty1.tdiv 2) = reg.duty1.tdiv 2 :=
    clamp_fract_eq_self (Int.tdiv_nonneg hd1 (by norm_num))
      (le_trans (tdiv_two_le_self hd1) hd1h)
  have e2 : clamp_fract (reg.duty2.tdiv 2) = reg.duty2.tdiv 2 :=
    clamp_fract_eq_self (Int.tdiv_nonneg hd2 (by norm_num))
      (le_trans (tdiv_two_le_self hd2) hd2h)
  constructor
  · intro hm hoc
    simp [regulator_feedback, hm, hoc, e1, e2]
  · intro hm hoc
    simp [regulator_feedback, hm, hoc, e1, e2]

/-- Witness for C5: overcurrent in VoltageFeedback at concrete odd
duties (101/51 halve to 50/25 with truncating division). -/
theorem feedback_protection_halves_witness :
    regulator_feedback
        { sample with isense := 65535, ilimit := 100, duty1 := 101, duty2 := 51 } =
      { sample with
        isense := 65535
        ilimit := 100
        duty1 := (101 : Int).tdiv 2
        duty2 := (51 : Int).tdiv 2 } :=
  (feedback_protection_halves
      { sample with isense := 65535, ilimit := 100, duty1 := 101, duty2 := 51 }
      (by decide) (by decide) (by decide) (by decide)).1 rfl (by decide)

/-- C6: `regulator_set_duty_cycle` returns the rejected-configuration
code 1 when the mode is neither Disabled nor ConstantDuty, and 2 when
`d2 > d1`; in both cases it returns before mutating any channel state
(the result state is the input state, whatever the channel's configure
capability would do). -/
theorem set_duty_cycle_rejects (configure_func : regulator_t → Int × regulator_t)
    (reg : regulator_t) (d1 d2 : Int) :
    ((reg.mode ≠ CONST_DUTY ∧ reg.mode ≠ DISABLED) →
      regulator_set_duty_cycle configure_func reg d1 d2 = (1, reg)) ∧
    (((reg.mode = CONST_DUTY ∨ reg.mode = DISABLED) ∧ d2 > d1) →
      regulator_set_duty_cycle configure_func reg d1 d2 = (2, reg)) := by
  constructor
  · intro h
    unfold regulator_set_duty_cycle
    rw [if_pos h]
  · rintro ⟨hmode, hd⟩
    unfold regulator_set_duty_cycle
    rw [if_neg (by rcases hmode with h | h <;> simp [h]), if_pos hd]

/-- Witness for C6: a VoltageFeedback-mode rejection (code 1) and a
`d2 > d1` rejection (code 2), both leaving the state untouched. -/
theorem set_duty_cycle_rejects_witness :
    regulator_set_duty_cycle configure_reg_id sample 7 3 = (1, sample) ∧
    regulator_set_duty_cycle configure_reg_id { sample with mode := DISABLED } 3 7
      = (2, { sample with mode := DISABLED }) :=
  ⟨(set_duty_cycle_rejects configure_reg_id sample 7 3).1 (by decide),
   (set_duty_cycle_rejects configure_reg_id { sample with mode := DISABLED } 3 7).2
     ⟨Or.inr rfl, by decide⟩⟩

theorem i32_eq_self {x : Int} (h0 : 0 ≤ x) (h1 : x < 2147483648) :
    i32 x = x := by
  unfold i32
  omega

/-- C7 counterexample: with `vsense_gain = 405` (channel 1's value) and
`v = 1132`, `set_vsetpoint` succeeds (codepoint 6) but `get_vsetpoint`
returns 970; the round-trip error is 162, and `162 * 405 = 65610 >
0x10000`, so it exceeds one codepoint's quantization `0x10000 / 405`. -/
theorem set_vsetpoint_roundtrip_cex :
    (regulator_set_vsetpoint sample 1132).1 = 0 ∧
    regulator_get_vsetpoint (regulator_set_vsetpoint sample 1132).2 = 970 ∧
    (1132 - regulator_get_vsetpoint (regulator_set_vsetpoint sample 1132).2) *
        (sample.vsense_gain : Int) > 0x10000 := by decide

/-- C7 (amended): `regulator_set_vsetpoint` converts the 16.16 physical
value to the codepoint `v = (vsense_gain * setpoint) >> 16` and fails,
leaving `vsetpoint` unchanged, when `v` exceeds the channel's
configured limit (`vlimit`).  On success, `regulator_get_vsetpoint`
under-approximates the set value with
`(setpoint - get) * vsense_gain < 0x10000 + vsense_gain`, i.e. the
round-trip error can reach one codepoint's quantization *plus one raw
unit* — one more than the claimed `0x10000 / vsense_gain` (see the
counterexample).  Hypotheses keep the C arithmetic free of overflow
(`gain * setpoint` within `int32`). -/
theorem set_vsetpoint_props (reg : regulator_t) (setpoint : Int) (v : Nat)
    (hg : 0 < reg.vsense_gain) (hsp : 0 ≤ setpoint)
    (hrange : reg.vsense_gain * setpoint.toNat < 2147483648)
    (hv : v = reg.vsense_gain * setpoint.toNat / 65536) :
    (v > reg.vlimit → regulator_set_vsetpoint reg setpoint = (1, reg)) ∧
    (v ≤ reg.vlimit →
      regulator_set_vsetpoint reg setpoint = (0, { reg with vsetpoint := v }) ∧
      regulator_get_vsetpoint { reg with vsetpoint := v } ≤ setpoint ∧
      (setpoint - regulator_get_vsetpoint { reg with vsetpoint := v }) *
          (reg.vsense_gain : Int) < 65536 + (reg.vsense_gain : Int)) := by
  have hsN : setpoint.toNat < 2147483648 :=
    lt_of_le_of_lt (Nat.le_mul_of_pos_left _ hg) hrange
  have hu : u32ofInt setpoint = setpoint.toNat := by
    unfold u32ofInt
    omega
  have hvdef : u32 (reg.vsense_gain * u32ofInt setpoint) >>> 16 = v := by
    rw [hu]
    unfold u32
    rw [Nat.mod_eq_of_lt (by omega), Nat.shiftRight_eq_div_pow, hv]
  constructor
  · intro h
    unfold regulator_set_vsetpoint
    dsimp only
    rw [hvdef, if_pos h]
  · intro h
    have hvlt : v < 32768 := by
      rw [hv]; omega
    have hX0 : (0 : Int) ≤ (v : Int) * 65536 := by positivity
    have hX1 : (v : Int) * 65536 < 2147483648 := by
      have : (v : Int) < 32768 := by exact_mod_cast hvlt
      nlinarith
    have hgets : regulator_get_vsetpoint { reg with vsetpoint := v } =
        ((v * 65536 / reg.vsense_gain : Nat) : Int) := by
      unfold regulator_get_vsetpoint
      dsimp only
      rw [i32_eq_self hX0 hX1]
      have hunat : u32ofInt ((v : Int) * 65536) = v * 65536 := by
        unfold u32ofInt
        omega
      rw [hunat]
      have hglt : v * 65536 / reg.vsense_gain < 2147483648 := by
        have h1 : v * 65536 / reg.vsense_gain ≤ v * 65536 :=
          Nat.div_le_self _ _
        omega
      exact i32_eq_self (Int.natCast_nonneg _) (by exact_mod_cast hglt)
    constructor
    · unfold regulator_set_vsetpoint
      dsimp only
      rw [hvdef, if_neg (not_lt.mpr h)]
    constructor
    · rw [hgets]
      have hdm1 := Nat.div_add_mod (reg.vsense_gain * setpoint.toNat) 65536
      have hdm2 := Nat.div_add_mod (v * 65536) reg.vsense_gain
      have hgle : v * 65536 / reg.vsense_gain ≤ setpoint.toNat := by
        apply Nat.le_of_mul_le_mul_left _ hg
        rw [← hv] at hdm1
        omega
      omega
    · rw [hgets]
      have hdm1 := Nat.div_add_mod (reg.vsense_gain * setpoint.toNat) 65536
      have hdm2 := Nat.div_add_mod (v * 65536) reg.vsense_gain
      have hr1 : reg.vsense_gain * setpoint.toNat % 65536 < 65536 :=
        Nat.mod_lt _ (by norm_num)
      have hr2 : v * 65536 % reg.vsense_gain < reg.vsense_gain :=
        Nat.mod_lt _ hg
      rw [← hv] at hdm1
      have hgle : v * 65536 / reg.vsense_gain ≤ setpoint.toNat := by
        apply Nat.le_of_mul_le_mul_left _ hg
        omega
      have hAB : reg.vsense_gain * setpoint.toNat <
          reg.vsense_gain * (v * 65536 / reg.vsense_gain) + 65536 +
            reg.vsense_gain := by
        omega
      have key : (setpoint - ((v * 65536 / reg.vsense_gain : Nat) : Int)) *
          (reg.vsense_gain : Int) =
          ((reg.vsense_gain * setpoint.toNat : Nat) : Int) -
          ((reg.vsense_gain * (v * 65536 / reg.vsense_gain) : Nat) : Int) := by
        push_cast
        have hts : (setpoint.toNat : Int) = setpoint := Int.toNat_of_nonneg hsp
        rw [hts]
        ring
      rw [key]
      omega

/-- Witness for C7's amended theorem: channel 1's gain 405, setpoint
1132 — the same input as the counterexample, showing the corrected
bound `162 * 405 = 65610 < 65536 + 405` is tight. -/
theorem set_vsetpoint_props_witness :
    regulator_set_vsetpoint sample 1132 = (0, { sample with vsetpoint := 6 }) ∧
    regulator_get_vsetpoint { sample with vsetpoint := 6 } ≤ 1132 ∧
    (1132 - regulator_get_vsetpoint { sample with vsetpoint := 6 }) *
        (sample.vsense_gain : Int) < 65536 + (sample.vsense_gain : Int) :=
  (set_vsetpoint_props sample 1132 6 (by decide) (by decide) (by decide)
    (by decide)).2 (by decide)

/-- C8 counterexample: `set_pwm_duty` stores `t` in a `uint32_t` before
the guard, so for `d = 0x20000`, `period = 0x80000000` the mathematical
tick count `(d*period) >> 16 = 2^32` exceeds 0xffff, yet the code does
not fault — it silently writes the truncated compare value 0. -/
theorem set_pwm_duty_cex :
    (0xffff : Nat) < ((0x20000 : Int).toNat * 0x80000000) >>> 16 ∧
    set_pwm_duty 0x80000000 0x20000 = some 0 := by decide

/-- C8 (amended): for every duty fraction `d` in the documented range
[0, 0x10000] and every 32-bit period, `set_pwm_duty` computes
`t = (d * period) >> 16` exactly; if `t` exceeds 0xffff it takes the
fatal-fault halt path and writes nothing, otherwise it writes exactly
`t`.  (Outside that duty range the `uint32_t` truncation of `t` can
defeat the guard; see the counterexample.)  In particular `d = 0x10000`
with `period = 0x20000` faults — see the witness. -/
theorem set_pwm_duty_guard (period : Nat) (d : Int)
    (hp : period < 4294967296) (hd0 : 0 ≤ d) (hdh : d ≤ 0x10000) :
    (0xffff < (d.toNat * period) >>> 16 → set_pwm_duty period d = none) ∧
    ((d.toNat * period) >>> 16 ≤ 0xffff →
      set_pwm_duty period d = some ((d.toNat * period) >>> 16)) := by
  have hu64 : u64ofInt d = d.toNat := by
    unfold u64ofInt
    rw [Int.emod_eq_of_lt hd0 (by omega)]
  have hprod48 : d.toNat * period < 281474976710656 := by
    have h1 : d.toNat ≤ 65536 := by omega
    calc d.toNat * period ≤ 65536 * 4294967295 :=
          Nat.mul_le_mul h1 (by omega)
      _ < 281474976710656 := by norm_num
  have hprod : d.toNat * period < 18446744073709551616 := by omega
  have hshift : (d.toNat * period) >>> 16 < 4294967296 := by
    rw [Nat.shiftRight_eq_div_pow]
    omega
  have ht : u32 (((u64ofInt d * period) % 18446744073709551616) >>> 16)
      = (d.toNat * period) >>> 16 := by
    rw [hu64, Nat.mod_eq_of_lt hprod]
    exact Nat.mod_eq_of_lt hshift
  constructor
  · intro h
    unfold set_pwm_duty
    dsimp only
    rw [ht, if_pos h]
  · intro h
    unfold set_pwm_duty
    dsimp only
    rw [ht, if_neg (not_lt.mpr h)]

/-- Witness for C8 at the named scenario: `d = 0x10000`,
`period = 0x20000` takes the fatal-fault path. -/
theorem set_pwm_duty_guard_witness :
    0xffff < ((0x10000 : Int).toNat * 0x20000) >>> 16 ∧
    set_pwm_duty 0x20000 0x10000 = none :=
  ⟨by decide, (set_pwm_duty_guard 0x20000 0x10000 (by decide) (by decide)
      (by decide)).1 (by decide)⟩

/-- C9: the configure capabilities of both concrete channels always
return 0 (`configure_pwm` / `configure_dual_pwm` return 0
unconditionally), so `regulator_set_mode` returns 0 for every mode
argument on both channels and the configure-fault recovery path (mode
forced back to Disabled) is unreachable: the resulting mode is always
the requested one. -/
theorem set_mode_always_succeeds (m1 : ch1_machine) (m2 : ch2_machine)
    (mo : feedback_mode) :
    (configure_ch1 m1).1 = 0 ∧ (configure_ch2 m2).1 = 0 ∧
    (regulator_set_mode_ch1 m1 mo).1 = 0 ∧
    (regulator_set_mode_ch1 m1 mo).2.reg.mode = mo ∧
    (regulator_set_mode_ch2 m2 mo).1 = 0 ∧
    (regulator_set_mode_ch2 m2 mo).2.reg.mode = mo := by
  refine ⟨rfl, rfl, ?_⟩
  cases mo <;>
    simp [regulator_set_mode_ch1, regulator_set_mode_ch2,
      configure_ch1, configure_ch2, configure_dual_pwm, configure_pwm]

/-- C10: `regulator_set_duty_cycle` performs no range validation: for
every pair `d2 ≤ d1` in Disabled or ConstantDuty mode the call succeeds
and stores `d1`, `d2` verbatim — including negative values and values
above 0x10000 — and then reconfigures the PWM from them (on channel 1,
compare values `ch1_tick period d1` / `ch1_tick period d2`). -/
theorem set_duty_cycle_no_range_check
    (configure_func : regulator_t → Int × regulator_t)
    (m : ch1_machine) (d1 d2 : Int)
    (hmode : m.reg.mode = DISABLED ∨ m.reg.mode = CONST_DUTY)
    (hle : d2 ≤ d1) :
    regulator_set_duty_cycle configure_func m.reg d1 d2 =
      (0, (configure_func { m.reg with duty1 := d1, duty2 := d2 }).2) ∧
    (set_duty_cycle_ch1 m d1 d2).1 = 0 ∧
    (set_duty_cycle_ch1 m d1 d2).2.reg.duty1 = d1 ∧
    (set_duty_cycle_ch1 m d1 d2).2.reg.duty2 = d2 ∧
    (set_duty_cycle_ch1 m d1 d2).2.tim2_oc3 = ch1_tick m.reg.period d1 ∧
    (set_duty_cycle_ch1 m d1 d2).2.tim4_oc3 = ch1_tick m.reg.period d2 := by
  have hm : ¬ (m.reg.mode ≠ CONST_DUTY ∧ m.reg.mode ≠ DISABLED) := by
    rcases hmode with h | h <;> simp [h]
  have hd : ¬ (d2 > d1) := not_lt.mpr hle
  refine ⟨?_, ?_⟩
  · unfold regulator_set_duty_cycle
    rw [if_neg hm, if_neg hd]
  · unfold set_duty_cycle_ch1
    rw [if_neg hm, if_neg hd]
    simp [configure_ch1, configure_dual_pwm, configure_pwm]

/-- Witness for C10: `d1 = 0x20000` (above the documented range) and
`d2 = -5` (negative) are accepted and stored verbatim in Disabled
mode. -/
theorem set_duty_cycle_no_range_check_witness :
    (set_duty_cycle_ch1
        { reg := { sample with mode := DISABLED }, tim2_oc3 := 0, tim4_oc3 := 0 }
        0x20000 (-5)).1 = 0 ∧
    (set_duty_cycle_ch1
        { reg := { sample with mode := DISABLED }, tim2_oc3 := 0, tim4_oc3 := 0 }
        0x20000 (-5)).2.reg.duty1 = 0x20000 ∧
    (set_duty_cycle_ch1
        { reg := { sample with mode := DISABLED }, tim2_oc3 := 0, tim4_oc3 := 0 }
        0x20000 (-5)).2.reg.duty2 = -5 :=
  have h := set_duty_cycle_no_range_check configure_reg_id
    { reg := { sample with mode := DISABLED }, tim2_oc3 := 0, tim4_oc3 := 0 }
    0x20000 (-5) (Or.inl rfl) (by decide)
  ⟨h.2.1, h.2.2.1, h.2.2.2.1⟩

end Solar
